import Mathlib

/-!
Shallow embedding of the client-side application engine of
`src/frontend/app.js` (MrSalsaa/mineserv): session state, routing
(`navigateTo`, `setTab`, `logout`), the render orchestration (`render`,
`setupConsole`), the API client (`api.request`, `api.uploadWorld`), the
server-detail header patch performed by `loadServerData`, and the dashboard
refresh performed by `loadDashboardData`.

Modelling conventions:
* Machine resources (interval timers, WebSocket connections, DOM nodes) are
  modelled by allocators handing out increasing natural-number handles; a
  handle is "live"/"open" while it is in the corresponding list.
* JavaScript truthiness on nullable strings: `null` and `""` are falsy.
* Asynchrony: the model is big-step per user event. The initial data fetch
  issued by a mount (`loadServerData(true)` inside `render`) is assumed to
  resolve successfully, which is when `setupConsole` runs; the relative
  order of that resolution and the synchronous `setInterval` does not
  affect the resulting state because the two allocators are disjoint.
* `response.json()` resolving to the JSON value `null` and the `.catch(()
  => null)` fallback are the same JavaScript value, so a parse failure is
  embedded as the value `JsVal.null`.
-/

namespace Mineserv

/-- Minimal fragment of the JavaScript/JSON value universe, enough to
distinguish the results the claims talk about (`null` versus parsed
payloads). -/
inductive JsVal where
  | null : JsVal
  | str : String → JsVal
  | num : Int → JsVal
  | bool : Bool → JsVal
deriving DecidableEq, Repr

/-- The observable part of a `fetch` response: status code, status line,
the result of `text()` (`none` when reading the body rejects) and the
result of `json()` (`none` when parsing rejects). -/
structure HttpResponse where
  status : Nat
  statusText : String
  textBody : Option String
  jsonBody : Option JsVal
deriving DecidableEq, Repr

/-- The `response.ok` flag of the fetch API: status in the range 200-299. -/
def HttpResponse.isOk (r : HttpResponse) : Bool :=
  200 ≤ r.status && r.status ≤ 299

/-- JavaScript truthiness of a nullable string: `null` and the empty
string are falsy, every other string is truthy. -/
def jsTruthy : Option String → Bool
  | none => false
  | some s => s ≠ ""

/-- The `state` singleton of app.js (the fields the routing, polling and
console logic read and write). -/
structure AppState where
  token : Option String
  currentView : String
  currentTab : String
  currentServer : Option String
  pollInterval : Option Nat
deriving DecidableEq, Repr

/-- Interval-timer environment: a fresh-handle counter and the list of
handles whose timers are currently live (created by `setInterval` and not
yet passed to `clearInterval`). -/
structure TimerEnv where
  nextId : Nat
  live : List Nat
deriving DecidableEq, Repr

/-- WebSocket environment: a fresh-handle counter and the list of open
sockets, each tagged with the server id its URL addresses. -/
structure SockEnv where
  nextId : Nat
  open_ : List (Nat × String)
deriving DecidableEq, Repr

/-- The whole mutable world of the frontend engine: the `state` singleton,
the persisted credential (`localStorage` slot "token"), the timer and
socket environments, the module-level `ws` variable of the console code,
and the top-level view the last `render` produced. -/
structure World where
  st : AppState
  persisted : Option String
  timers : TimerEnv
  ws : Option Nat
  socks : SockEnv
  viewShown : String
deriving DecidableEq, Repr

/-- Effect of `setInterval(...)`: allocate a fresh live timer handle. -/
def setIntervalW (w : World) : World × Nat :=
  let tid := w.timers.nextId
  ({ w with timers := { nextId := tid + 1, live := w.timers.live ++ [tid] } }, tid)

/-- Effect of `clearInterval(h)`: the timer with handle `h` stops being
live (clearing an already-cleared handle is a no-op, as in the browser). -/
def clearIntervalW (h : Nat) (w : World) : World :=
  { w with timers := { w.timers with live := w.timers.live.filter (fun t => t ≠ h) } }

/-- Effect of `sock.close()` on the socket environment. -/
def closeSockW (h : Nat) (w : World) : World :=
  { w with socks := { w.socks with open_ := w.socks.open_.filter (fun p => p.1 ≠ h) } }

/-- Embedding of `setupConsole(id)` (app.js lines 299-311): close the
socket held in the module variable `ws` if there is one, then open a new
WebSocket addressed to server `id` and store it in `ws`. -/
def setupConsole (id : String) (w : World) : World :=
  let w := match w.ws with
    | some h => closeSockW h w
    | none => w
  let sid := w.socks.nextId
  { w with
    socks := { nextId := sid + 1, open_ := w.socks.open_ ++ [(sid, id)] },
    ws := some sid }

/-- Embedding of `render()` (app.js lines 94-119). With no token it shows
the login view and returns. Otherwise it rebuilds the main markup, then:
dashboard view starts the fleet poll with `setInterval`; server view with a
truthy `currentServer` runs `loadServerData(true)` (whose successful
resolution calls `setupConsole` exactly when the console tab is active) and
starts the per-server poll. Note that `render` never clears a previously
stored `pollInterval` before overwriting it. -/
def render (w : World) : World :=
  match w.st.token with
  | none => { w with viewShown := "login" }
  | some _ =>
    let w := { w with viewShown := w.st.currentView }
    if w.st.currentView = "dashboard" then
      let p := setIntervalW w
      { p.1 with st := { p.1.st with pollInterval := some p.2 } }
    else if jsTruthy w.st.currentServer then
      let w := if w.st.currentTab = "console" then
          setupConsole (w.st.currentServer.getD "") w
        else w
      let p := setIntervalW w
      { p.1 with st := { p.1.st with pollInterval := some p.2 } }
    else w

/-- Embedding of `window.navigateTo(view, serverId = null)` (app.js lines
78-86): set the view, overwrite `currentServer` only when `serverId` is
truthy, clear the active poll timer, null the handle, and render. -/
def navigateTo (view : String) (serverId : Option String) (w : World) : World :=
  let st := { w.st with currentView := view }
  let st := if jsTruthy serverId then { st with currentServer := serverId } else st
  let w := { w with st := st }
  let w := match w.st.pollInterval with
    | some h => clearIntervalW h w
    | none => w
  let w := { w with st := { w.st with pollInterval := none } }
  render w

/-- Embedding of `window.setTab(tab)` (app.js lines 88-91): set the tab and
render. It does not touch `pollInterval` before rendering. -/
def setTab (tab : String) (w : World) : World :=
  render { w with st := { w.st with currentTab := tab } }

/-- Embedding of `window.logout()` (app.js line 723): drop the persisted
credential, null the token, clear the poll timer if the handle is set
(without nulling the handle), and render. -/
def logout (w : World) : World :=
  let w := { w with persisted := none, st := { w.st with token := none } }
  let w := match w.st.pollInterval with
    | some h => clearIntervalW h w
    | none => w
  render w

/-- The world at page load: the `state` literal of app.js lines 5-14 (token
read from storage, view "dashboard", tab "console", no server, no timer),
fresh resource environments, followed by the top-level `render()` call of
app.js line 727. -/
def initWorld (persisted : Option String) : World :=
  render
    { st :=
        { token := persisted
          currentView := "dashboard"
          currentTab := "console"
          currentServer := none
          pollInterval := none }
      persisted := persisted
      timers := { nextId := 0, live := [] }
      ws := none
      socks := { nextId := 0, open_ := [] }
      viewShown := "" }

namespace api

/-- Authorization header set by `api.request` (app.js line 20): present
only when `state.token` is truthy. -/
def requestAuthHeader (token : Option String) : Option String :=
  if jsTruthy token then some ("Bearer " ++ token.getD "") else none

/-- Authorization header set by `api.uploadWorld` (app.js line 58): always
present; template-literal interpolation of a null token produces the
literal text "Bearer null". -/
def uploadAuthHeader (token : Option String) : String :=
  "Bearer " ++ (match token with | some t => t | none => "null")

/-- Embedding of `api.request` (app.js lines 18-35) applied to the response
the server returned. Non-ok responses with status 401 clear the token and
the persisted credential and call `render()` before the error is thrown;
the thrown message is the body text, falling back to the status line when
reading the body fails or yields the empty string. Ok responses resolve
null for a 204 and otherwise the parsed body, with a parse failure caught
to null. The returned world reflects every state mutation performed before
the promise settles. -/
def request (w : World) (resp : HttpResponse) : World × Except String JsVal :=
  if resp.isOk then
    (w, Except.ok (if resp.status = 204 then JsVal.null else resp.jsonBody.getD JsVal.null))
  else
    let w := if resp.status = 401 then
        render { w with persisted := none, st := { w.st with token := none } }
      else w
    let raw := resp.textBody.getD resp.statusText
    (w, Except.error (if raw = "" then resp.statusText else raw))

/-- Embedding of the response handler of `api.uploadWorld` (app.js lines
55-62): any non-ok response rejects with the fixed string "Upload failed"
and mutates nothing; an ok response resolves null for status 204 or 201 and
otherwise the parsed body, with a parse failure caught to null. -/
def uploadWorld (w : World) (resp : HttpResponse) : World × Except String JsVal :=
  if resp.isOk then
    (w, Except.ok (if resp.status = 204 || resp.status = 201 then JsVal.null
                   else resp.jsonBody.getD JsVal.null))
  else
    (w, Except.error "Upload failed")

end api

/-- Server descriptor as returned by `api.getServer` and consumed by the
header code of `loadServerData` (fields `name`, `state`, `server_type`,
`minecraft_version`, `port`). -/
structure Server where
  id : String
  name : String
  server_type : String
  minecraft_version : String
  port : Nat
  state : String
deriving DecidableEq, Repr

/-- One action button of the header button group, at the granularity the
patch and the fallback template agree on (class list, click handler,
label); HTML whitespace between buttons is not part of the visible
result. -/
structure Button where
  cls : String
  onclick : String
  label : String
deriving DecidableEq, Repr

/-- Badge class computed by both branches of `loadServerData` (app.js
lines 199 and 217). -/
def badgeClassFor (runState : String) : String :=
  "badge " ++ (if runState = "running" then "badge-success" else "badge-error")

/-- Separator of the informational line, kept byte-for-byte as it appears
in app.js lines 202 and 218. -/
def infoSep : String := " ‚Ä¢ "

/-- Informational line of the header (type, version, port), app.js lines
202 and 218. -/
def infoTextFor (s : Server) : String :=
  s.server_type ++ infoSep ++ s.minecraft_version ++ infoSep ++ "Port " ++ toString s.port

/-- Button group generated from the run state by both branches of
`loadServerData` (app.js lines 204-211 and 220-227): Stop when running,
Start otherwise, then Restart and Delete Server. -/
def actionButtons (runState : String) : List Button :=
  (if runState = "running" then
      [{ cls := "btn btn-danger btn-sm", onclick := "handleStop()", label := "Stop" }]
    else
      [{ cls := "btn btn-success btn-sm", onclick := "handleStart()", label := "Start" }])
  ++ [{ cls := "btn btn-secondary btn-sm", onclick := "handleRestart()", label := "Restart" },
      { cls := "btn btn-danger btn-sm", onclick := "handleDeleteServer()", label := "Delete Server" }]

/-- The three attachment points the differential patch writes (status
badge class and text, button group, informational line). -/
structure HeaderLoci where
  badgeClass : String
  badgeText : String
  buttons : List Button
  infoText : String
deriving DecidableEq, Repr

/-- Mounted state of the `#server-header` element: either empty (first
render, the querySelector calls find nothing) or holding the heading name
plus the three patchable loci. -/
inductive HeaderDom where
  | unmounted : HeaderDom
  | mounted : String → HeaderLoci → HeaderDom
deriving DecidableEq, Repr

/-- Loci values computed from a snapshot; the patch branch and the full
fallback template of `loadServerData` produce the same values. -/
def lociFor (s : Server) : HeaderLoci :=
  { badgeClass := badgeClassFor s.state
    badgeText := s.state
    buttons := actionButtons s.state
    infoText := infoTextFor s }

/-- Embedding of the header update of `loadServerData` (app.js lines
191-231) for one authoritative snapshot `s`: when the three attachment
points exist, patch exactly them in place; otherwise fall back to writing
the full header markup (which mounts the loci and the heading name). -/
def applySnapshot (s : Server) : HeaderDom → HeaderDom
  | HeaderDom.unmounted => HeaderDom.mounted s.name (lociFor s)
  | HeaderDom.mounted n _ => HeaderDom.mounted n (lociFor s)

/-- Embedding of the optimistic badge patch of `window.handleStop` (app.js
lines 268-275) performed after the stop request resolves: if a badge is
mounted, set its text to "stopping" and its class to the error badge;
otherwise do nothing. -/
def handleStopPatch : HeaderDom → HeaderDom
  | HeaderDom.unmounted => HeaderDom.unmounted
  | HeaderDom.mounted n l =>
      HeaderDom.mounted n { l with badgeText := "stopping", badgeClass := "badge badge-error" }

/-- Embedding of the optimistic badge patch of `window.handleStart`
(app.js lines 259-267). -/
def handleStartPatch : HeaderDom → HeaderDom
  | HeaderDom.unmounted => HeaderDom.unmounted
  | HeaderDom.mounted n l =>
      HeaderDom.mounted n { l with badgeText := "starting", badgeClass := "badge badge-success" }

/-- Displayed run status: the text of the status badge, when mounted. -/
def displayedStatus : HeaderDom → Option String
  | HeaderDom.unmounted => none
  | HeaderDom.mounted _ l => some l.badgeText

/-- Fleet statistics as returned by `api.getSystemStats` and consumed by
`loadDashboardData`. The cpu percentage is carried in tenths of a percent
so that the `toFixed(1)` formatting is exact. -/
structure SystemStats where
  total_servers : Nat
  running_servers : Nat
  cpu_tenths : Nat
deriving DecidableEq, Repr

/-- Rendering of `x.toFixed(1)` for a non-negative value given in
tenths. -/
def toFixed1 (tenths : Nat) : String :=
  toString (tenths / 10) ++ "." ++ toString (tenths % 10)

/-- A DOM text node: its identity and its text content. Assigning
`textContent` keeps the identity; replacing a parent innerHTML allocates a
fresh identity. -/
structure TextNode where
  nodeId : Nat
  text : String
deriving DecidableEq, Repr

/-- Mounted dashboard subtree: the three counter nodes, the identity of
the `#servers-list` container, and the identities of its current child row
nodes. `nextNode` is the document-wide allocator for fresh nodes. -/
structure DashboardDom where
  nextNode : Nat
  statTotal : TextNode
  statRunning : TextNode
  statCpu : TextNode
  serversListId : Nat
  rowIds : List Nat
deriving DecidableEq, Repr

/-- Embedding of one successful `loadDashboardData` tick (app.js lines
588-608) on a mounted dashboard: assign the three counter texts in place,
then assign `servers-list.innerHTML`, which keeps the container node but
replaces every row with freshly created nodes (one card per server, or the
single "No servers found" placeholder when the list is empty). -/
def loadDashboardData (servers : List Server) (stats : SystemStats)
    (d : DashboardDom) : DashboardDom :=
  let rowCount := max servers.length 1
  { nextNode := d.nextNode + rowCount
    statTotal := { d.statTotal with text := toString stats.total_servers }
    statRunning := { d.statRunning with text := toString stats.running_servers }
    statCpu := { d.statCpu with text := toFixed1 stats.cpu_tenths ++ "%" }
    serversListId := d.serversListId
    rowIds := (List.range rowCount).map (fun i => d.nextNode + i) }

/-! Theorems settling the claims. -/

/-- Helper: `render` never changes which server is current. -/
theorem render_st_currentServer (w : World) :
    (render w).st.currentServer = w.st.currentServer := by
  unfold render setIntervalW setupConsole closeSockW
  cases w.st.token <;> cases w.ws <;>
    first
      | rfl
      | (dsimp only
         split
         · rfl
         · split
           · split <;> rfl
           · rfl)

/-- C1: the claim states that every operation starting a new poll first
cancels the previously active timer, so at most one poll timer is live at
any instant. Evaluating the embedded event semantics on the sequence
load-page (token present), `navigateTo("server", "s1")`,
`setTab("files")` shows two live interval timers afterwards: `setTab` and
the `render` it triggers start the per-server poll without clearing the
poll that was already running, so the claim fails on the code. -/
theorem C1_setTab_starts_second_timer :
    (setTab "files" (navigateTo "server" (some "s1") (initWorld (some "abc")))).timers.live
      = [1, 2] ∧
    (setTab "files" (navigateTo "server" (some "s1") (initWorld (some "abc")))).timers.live.length
      = 2 := by
  decide

/-- C2: the claim states that every transition leaving the console closes
the active WebSocket. Evaluating the embedded event semantics: after
load-page (token present), `navigateTo("server", "s1")` with the console
tab active, exactly one socket to "s1" is open; after `setTab("files")`
that same socket is still open (and still held in `ws`), and it also
survives `logout()` — nothing on the leave-console, navigate-away or
logout paths closes it, so the claim fails on the code. -/
theorem C2_socket_survives_leaving_console :
    (setTab "files" (navigateTo "server" (some "s1") (initWorld (some "abc")))).socks.open_
      = [(0, "s1")] ∧
    (setTab "files" (navigateTo "server" (some "s1") (initWorld (some "abc")))).ws
      = some 0 ∧
    (logout (setTab "files" (navigateTo "server" (some "s1") (initWorld (some "abc"))))).socks.open_
      = [(0, "s1")] := by
  decide

/-- C3: for every response with status 401, `api.request` clears the
in-memory token and the persisted credential and renders the login view
(the returned world already contains the render), and the call still
surfaces an error to the caller. -/
theorem C3_auth_failure_clears_credential_and_renders_login
    (w : World) (resp : HttpResponse) (h : resp.status = 401) :
    (api.request w resp).1.st.token = none ∧
    (api.request w resp).1.persisted = none ∧
    (api.request w resp).1.viewShown = "login" ∧
    ∃ e, (api.request w resp).2 = Except.error e := by
  have hok : resp.isOk = false := by simp [HttpResponse.isOk, h]
  refine ⟨?_, ?_, ?_, ?_⟩ <;>
    simp [api.request, hok, h, render]

/-- Witness for C3 at a concrete world and a concrete 401 response. -/
theorem C3_witness :
    (api.request (initWorld (some "abc"))
        { status := 401, statusText := "Unauthorized",
          textBody := some "Invalid token", jsonBody := none }).1.st.token = none ∧
    (api.request (initWorld (some "abc"))
        { status := 401, statusText := "Unauthorized",
          textBody := some "Invalid token", jsonBody := none }).1.persisted = none ∧
    (api.request (initWorld (some "abc"))
        { status := 401, statusText := "Unauthorized",
          textBody := some "Invalid token", jsonBody := none }).1.viewShown = "login" ∧
    ∃ e, (api.request (initWorld (some "abc"))
        { status := 401, statusText := "Unauthorized",
          textBody := some "Invalid token", jsonBody := none }).2 = Except.error e :=
  C3_auth_failure_clears_credential_and_renders_login (initWorld (some "abc"))
    { status := 401, statusText := "Unauthorized",
      textBody := some "Invalid token", jsonBody := none } rfl

/-- C4: for a header displaying "running", applying the optimistic
"stopping" badge patch of `handleStop` and then the authoritative snapshot
of a poll tick with state "stopped" leaves the displayed status equal to
the authoritative state "stopped": the snapshot patch writes the badge
from the snapshot alone, superseding the optimistic value. -/
theorem C4_authoritative_snapshot_supersedes_optimistic_stop
    (h : HeaderDom) (s : Server)
    (hrun : displayedStatus h = some "running") (hs : s.state = "stopped") :
    displayedStatus (applySnapshot s (handleStopPatch h)) = some "stopped" := by
  cases h with
  | unmounted => simp [displayedStatus] at hrun
  | mounted n l =>
      simp [handleStopPatch, applySnapshot, displayedStatus, lociFor, hs]

/-- Witness for C4 at a concrete running header and a stopped snapshot. -/
theorem C4_witness :
    displayedStatus
      (applySnapshot
        { id := "s1", name := "Alpha", server_type := "paper",
          minecraft_version := "1.21", port := 25565, state := "stopped" }
        (handleStopPatch
          (HeaderDom.mounted "Alpha"
            (lociFor
              { id := "s1", name := "Alpha", server_type := "paper",
                minecraft_version := "1.21", port := 25565, state := "running" }))))
      = some "stopped" :=
  C4_authoritative_snapshot_supersedes_optimistic_stop
    (HeaderDom.mounted "Alpha"
      (lociFor
        { id := "s1", name := "Alpha", server_type := "paper",
          minecraft_version := "1.21", port := 25565, state := "running" }))
    { id := "s1", name := "Alpha", server_type := "paper",
      minecraft_version := "1.21", port := 25565, state := "stopped" }
    rfl rfl

/-- C5 counterexample: the claim states that the 204 result of
`api.request` is distinguishable from the result of a 2xx response whose
body fails to parse. On the code both resolve to the same value, the
JavaScript null: a concrete 204 response and a concrete 200 response with
an unparsable body yield equal results. -/
theorem C5_counterexample :
    (api.request (initWorld (some "abc"))
        { status := 204, statusText := "No Content",
          textBody := some "", jsonBody := none }).2
      = Except.ok JsVal.null ∧
    (api.request (initWorld (some "abc"))
        { status := 200, statusText := "OK",
          textBody := some "not json", jsonBody := none }).2
      = Except.ok JsVal.null :=
  ⟨rfl, rfl⟩

/-- C5 amended: a 204 resolves to null, and any 2xx response whose body
fails to parse also resolves to null; the two results are equal, so a
caller cannot branch on "nothing to show" versus "malformed payload". -/
theorem C5_amended_no_content_equals_parse_failure
    (w : World) (r1 r2 : HttpResponse)
    (h1 : r1.status = 204) (h2 : r2.isOk = true) (h3 : r2.jsonBody = none) :
    (api.request w r1).2 = Except.ok JsVal.null ∧
    (api.request w r1).2 = (api.request w r2).2 := by
  have hok1 : r1.isOk = true := by simp [HttpResponse.isOk, h1]
  refine ⟨by simp [api.request, hok1, h1], ?_⟩
  simp [api.request, hok1, h1, h2, h3]

/-- Witness for C5 amended at the concrete responses of the
counterexample shape. -/
theorem C5_witness :
    (api.request (initWorld none)
        { status := 204, statusText := "No Content",
          textBody := some "", jsonBody := none }).2 = Except.ok JsVal.null ∧
    (api.request (initWorld none)
        { status := 204, statusText := "No Content",
          textBody := some "", jsonBody := none }).2
      = (api.request (initWorld none)
          { status := 200, statusText := "OK",
            textBody := some "not json", jsonBody := none }).2 :=
  C5_amended_no_content_equals_parse_failure (initWorld none)
    { status := 204, statusText := "No Content",
      textBody := some "", jsonBody := none }
    { status := 200, statusText := "OK",
      textBody := some "not json", jsonBody := none }
    rfl rfl rfl

/-- C6 counterexample: the claim states that `api.uploadWorld` shares the
auth-injection and error-classification behaviour of `api.request`. At the
concrete 401 response below, `api.request` clears the token and throws the
server-provided text while `api.uploadWorld` leaves the whole world (token
included) untouched and rejects with the fixed string "Upload failed";
moreover with no stored token `api.request` omits the Authorization header
while `api.uploadWorld` sends the literal "Bearer null". -/
theorem C6_counterexample :
    (api.request (initWorld (some "tok"))
        { status := 401, statusText := "Unauthorized",
          textBody := some "Invalid token", jsonBody := none }).1.st.token = none ∧
    (api.request (initWorld (some "tok"))
        { status := 401, statusText := "Unauthorized",
          textBody := some "Invalid token", jsonBody := none }).2
      = Except.error "Invalid token" ∧
    (api.uploadWorld (initWorld (some "tok"))
        { status := 401, statusText := "Unauthorized",
          textBody := some "Invalid token", jsonBody := none }).1.st.token = some "tok" ∧
    (api.uploadWorld (initWorld (some "tok"))
        { status := 401, statusText := "Unauthorized",
          textBody := some "Invalid token", jsonBody := none }).2
      = Except.error "Upload failed" ∧
    api.requestAuthHeader none = none ∧
    api.uploadAuthHeader none = "Bearer null" :=
  ⟨rfl, rfl, rfl, rfl, rfl, rfl⟩

/-- C6 amended: `api.uploadWorld` omits the JSON content-type header and
differs from `api.request` in auth injection and error classification: it
always sends an Authorization header (the literal "Bearer null" when no
credential is stored, where `api.request` omits the header), and every
non-ok response, 401 included, rejects with the fixed message "Upload
failed" while leaving the world unchanged (no credential clearing, no
render, no server-provided text). -/
theorem C6_amended_upload_error_path_differs
    (w : World) (resp : HttpResponse) (h : resp.isOk = false) :
    api.uploadWorld w resp = (w, Except.error "Upload failed") ∧
    api.requestAuthHeader none = none ∧
    api.uploadAuthHeader none = "Bearer null" := by
  simp [api.uploadWorld, h, api.requestAuthHeader, api.uploadAuthHeader, jsTruthy]

/-- Witness for C6 amended at a concrete world and 401 response. -/
theorem C6_witness :
    api.uploadWorld (initWorld (some "tok"))
        { status := 401, statusText := "Unauthorized",
          textBody := some "Invalid token", jsonBody := none }
      = (initWorld (some "tok"), Except.error "Upload failed") ∧
    api.requestAuthHeader none = none ∧
    api.uploadAuthHeader none = "Bearer null" :=
  C6_amended_upload_error_path_differs (initWorld (some "tok"))
    { status := 401, statusText := "Unauthorized",
      textBody := some "Invalid token", jsonBody := none } rfl

/-- C7: the differential header patch of `loadServerData` is idempotent:
applying the same authoritative snapshot twice yields the same visible
header as applying it once, from any starting header state. -/
theorem C7_patch_idempotent (s : Server) (h : HeaderDom) :
    applySnapshot s (applySnapshot s h) = applySnapshot s h := by
  cases h <;> rfl

/-- C8 counterexample: the claim states that a fleet-poll tick updating
the counters to "3" and "1" leaves the node identity of the existing
server-list rows unchanged. On the code, the tick assigns
`servers-list.innerHTML`, creating fresh row nodes every time: at the
concrete mounted dashboard below, the counters do read "3" and "1"
afterwards, but the row node identities all change. -/
theorem C8_counterexample :
    (loadDashboardData
        [{ id := "a", name := "A", server_type := "paper",
           minecraft_version := "1.21", port := 25565, state := "running" },
         { id := "b", name := "B", server_type := "paper",
           minecraft_version := "1.21", port := 25566, state := "stopped" },
         { id := "c", name := "C", server_type := "spigot",
           minecraft_version := "1.20", port := 25567, state := "stopped" }]
        { total_servers := 3, running_servers := 1, cpu_tenths := 123 }
        { nextNode := 10, statTotal := { nodeId := 1, text := "-" },
          statRunning := { nodeId := 2, text := "-" },
          statCpu := { nodeId := 3, text := "-%" },
          serversListId := 4, rowIds := [5, 6, 7] }).statTotal.text = "3" ∧
    (loadDashboardData
        [{ id := "a", name := "A", server_type := "paper",
           minecraft_version := "1.21", port := 25565, state := "running" },
         { id := "b", name := "B", server_type := "paper",
           minecraft_version := "1.21", port := 25566, state := "stopped" },
         { id := "c", name := "C", server_type := "spigot",
           minecraft_version := "1.20", port := 25567, state := "stopped" }]
        { total_servers := 3, running_servers := 1, cpu_tenths := 123 }
        { nextNode := 10, statTotal := { nodeId := 1, text := "-" },
          statRunning := { nodeId := 2, text := "-" },
          statCpu := { nodeId := 3, text := "-%" },
          serversListId := 4, rowIds := [5, 6, 7] }).statRunning.text = "1" ∧
    (loadDashboardData
        [{ id := "a", name := "A", server_type := "paper",
           minecraft_version := "1.21", port := 25565, state := "running" },
         { id := "b", name := "B", server_type := "paper",
           minecraft_version := "1.21", port := 25566, state := "stopped" },
         { id := "c", name := "C", server_type := "spigot",
           minecraft_version := "1.20", port := 25567, state := "stopped" }]
        { total_servers := 3, running_servers := 1, cpu_tenths := 123 }
        { nextNode := 10, statTotal := { nodeId := 1, text := "-" },
          statRunning := { nodeId := 2, text := "-" },
          statCpu := { nodeId := 3, text := "-%" },
          serversListId := 4, rowIds := [5, 6, 7] }).rowIds = [10, 11, 12] ∧
    [10, 11, 12] ≠ [5, 6, 7] := by
  decide

/-- C8 amended: a fleet-poll tick updates the three counters in place
(their node identities and the identity of the servers-list container are
preserved, and the total and running texts become the stringified stats)
while fully regenerating the server-list rows: every row node after the
tick is freshly allocated, so none of the previous row nodes survives. -/
theorem C8_amended_counters_in_place_rows_rebuilt
    (d : DashboardDom) (servers : List Server) (stats : SystemStats)
    (hwf : ∀ j ∈ d.rowIds, j < d.nextNode) :
    (loadDashboardData servers stats d).statTotal.nodeId = d.statTotal.nodeId ∧
    (loadDashboardData servers stats d).statRunning.nodeId = d.statRunning.nodeId ∧
    (loadDashboardData servers stats d).serversListId = d.serversListId ∧
    (loadDashboardData servers stats d).statTotal.text = toString stats.total_servers ∧
    (loadDashboardData servers stats d).statRunning.text = toString stats.running_servers ∧
    ∀ i ∈ (loadDashboardData servers stats d).rowIds, i ∉ d.rowIds := by
  refine ⟨rfl, rfl, rfl, rfl, rfl, ?_⟩
  intro i hi hmem
  simp only [loadDashboardData, List.mem_map, List.mem_range] at hi
  obtain ⟨k, -, rfl⟩ := hi
  exact absurd (hwf _ hmem) (by omega)

/-- Witness for C8 amended at the concrete dashboard of the
counterexample. -/
theorem C8_witness :
    (loadDashboardData []
        { total_servers := 0, running_servers := 0, cpu_tenths := 0 }
        { nextNode := 10, statTotal := { nodeId := 1, text := "-" },
          statRunning := { nodeId := 2, text := "-" },
          statCpu := { nodeId := 3, text := "-%" },
          serversListId := 4, rowIds := [5, 6, 7] }).statTotal.nodeId = 1 ∧
    (loadDashboardData []
        { total_servers := 0, running_servers := 0, cpu_tenths := 0 }
        { nextNode := 10, statTotal := { nodeId := 1, text := "-" },
          statRunning := { nodeId := 2, text := "-" },
          statCpu := { nodeId := 3, text := "-%" },
          serversListId := 4, rowIds := [5, 6, 7] }).statRunning.nodeId = 2 ∧
    (loadDashboardData []
        { total_servers := 0, running_servers := 0, cpu_tenths := 0 }
        { nextNode := 10, statTotal := { nodeId := 1, text := "-" },
          statRunning := { nodeId := 2, text := "-" },
          statCpu := { nodeId := 3, text := "-%" },
          serversListId := 4, rowIds := [5, 6, 7] }).serversListId = 4 ∧
    (loadDashboardData []
        { total_servers := 0, running_servers := 0, cpu_tenths := 0 }
        { nextNode := 10, statTotal := { nodeId := 1, text := "-" },
          statRunning := { nodeId := 2, text := "-" },
          statCpu := { nodeId := 3, text := "-%" },
          serversListId := 4, rowIds := [5, 6, 7] }).statTotal.text = toString 0 ∧
    (loadDashboardData []
        { total_servers := 0, running_servers := 0, cpu_tenths := 0 }
        { nextNode := 10, statTotal := { nodeId := 1, text := "-" },
          statRunning := { nodeId := 2, text := "-" },
          statCpu := { nodeId := 3, text := "-%" },
          serversListId := 4, rowIds := [5, 6, 7] }).statRunning.text = toString 0 ∧
    ∀ i ∈ (loadDashboardData []
        { total_servers := 0, running_servers := 0, cpu_tenths := 0 }
        { nextNode := 10, statTotal := { nodeId := 1, text := "-" },
          statRunning := { nodeId := 2, text := "-" },
          statCpu := { nodeId := 3, text := "-%" },
          serversListId := 4, rowIds := [5, 6, 7] }).rowIds, i ∉ ([5, 6, 7] : List Nat) :=
  C8_amended_counters_in_place_rows_rebuilt
    { nextNode := 10, statTotal := { nodeId := 1, text := "-" },
      statRunning := { nodeId := 2, text := "-" },
      statCpu := { nodeId := 3, text := "-%" },
      serversListId := 4, rowIds := [5, 6, 7] }
    [] { total_servers := 0, running_servers := 0, cpu_tenths := 0 }
    (by decide)

/-- C9: `navigateTo` overwrites `currentServer` only for a truthy server
id argument: with the default null id, or the falsy empty string, the
previously viewed server is kept (so a later id-less navigation back to
the server view silently reattaches to it), while a non-empty id
overwrites the field. -/
theorem C9_navigate_preserves_currentServer
    (w : World) (view : String) (s : String) (hs : s ≠ "") :
    (navigateTo view none w).st.currentServer = w.st.currentServer ∧
    (navigateTo view (some "") w).st.currentServer = w.st.currentServer ∧
    (navigateTo view (some s) w).st.currentServer = some s := by
  unfold navigateTo
  cases hpi : w.st.pollInterval <;>
    simp [jsTruthy, hs, hpi, render_st_currentServer, clearIntervalW]

/-- Witness for C9: in a world looking at server "s1", navigating without
an id keeps "s1" and navigating with "s2" overwrites it. -/
theorem C9_witness :
    (navigateTo "dashboard" none
        (navigateTo "server" (some "s1") (initWorld (some "abc")))).st.currentServer
      = (navigateTo "server" (some "s1") (initWorld (some "abc"))).st.currentServer ∧
    (navigateTo "dashboard" (some "")
        (navigateTo "server" (some "s1") (initWorld (some "abc")))).st.currentServer
      = (navigateTo "server" (some "s1") (initWorld (some "abc"))).st.currentServer ∧
    (navigateTo "dashboard" (some "s2")
        (navigateTo "server" (some "s1") (initWorld (some "abc")))).st.currentServer
      = some "s2" :=
  C9_navigate_preserves_currentServer
    (navigateTo "server" (some "s1") (initWorld (some "abc")))
    "dashboard" "s2" (by decide)

/-- C10: `api.request` never rejects on an ok (2xx) response: the result
is always a success value, and when the body fails to parse the call
resolves to null, the same value a 204 resolves to. -/
theorem C10_ok_responses_never_reject
    (w : World) (resp : HttpResponse) (h : resp.isOk = true) :
    (∃ v, (api.request w resp).2 = Except.ok v) ∧
    (resp.jsonBody = none → (api.request w resp).2 = Except.ok JsVal.null) := by
  constructor
  · exact ⟨if resp.status = 204 then JsVal.null else resp.jsonBody.getD JsVal.null,
      by simp [api.request, h]⟩
  · intro hj
    simp [api.request, h, hj]

/-- Witness for C10 at a concrete ok response with an unparsable body. -/
theorem C10_witness :
    (∃ v, (api.request (initWorld (some "abc"))
        { status := 200, statusText := "OK",
          textBody := some "not json", jsonBody := none }).2 = Except.ok v) ∧
    (({ status := 200, statusText := "OK", textBody := some "not json",
        jsonBody := none } : HttpResponse).jsonBody = none →
      (api.request (initWorld (some "abc"))
        { status := 200, statusText := "OK",
          textBody := some "not json", jsonBody := none }).2 = Except.ok JsVal.null) :=
  C10_ok_responses_never_reject (initWorld (some "abc"))
    { status := 200, statusText := "OK",
      textBody := some "not json", jsonBody := none } rfl

end Mineserv
